import Mathlib

/-!
Verification of the Photo Filter Studio specification against the code.

The repository's `src/App.jsx` holds the application state and handlers
(filters state, upload, filter change, compare toggle, download); the
filter rendering engine itself (Color Transform Library, Filter
Compositor, Render Surface Manager) lives in components not present under
`src/`, so those parts are modelled from the spec and marked as such.
Channel values are modelled as exact rationals; an 8-bit source channel
embeds as a natural number in [0, 255].
-/

/-- An RGBA pixel; channel values are exact rationals so that the
spec's color-matrix arithmetic is represented without rounding. -/
structure Pixel where
  r : ℚ
  g : ℚ
  b : ℚ
  a : ℚ
deriving DecidableEq, Repr

/-- A pixel whose color channels lie in the 8-bit range [0, 255]. -/
def Pixel.InRange (px : Pixel) : Prop :=
  0 ≤ px.r ∧ px.r ≤ 255 ∧ 0 ≤ px.g ∧ px.g ≤ 255 ∧ 0 ≤ px.b ∧ px.b ≤ 255

instance (px : Pixel) : Decidable px.InRange := by
  unfold Pixel.InRange; infer_instance

/-- The five-field filter parameter set of `src/App.jsx` (the `filters`
state object): three booleans and two percentages. -/
structure FilterParameters where
  grayscale : Bool
  sepia : Bool
  invert : Bool
  brightness : ℚ
  contrast : ℚ
deriving DecidableEq, Repr

/-- The identity parameter value, as written out in `src/App.jsx`
lines 12-18 (initial state), 37-43 (upload reset), 64-70 (reset button)
and 178-184 (hold-to-compare). -/
def defaultFilters : FilterParameters :=
  { grayscale := false, sepia := false, invert := false,
    brightness := 100, contrast := 100 }

/-- Modelled from the spec: `§4.1` — channel values are clamped to
[0, 255] after every stage. -/
def clampChannel (x : ℚ) : ℚ :=
  if x < 0 then 0 else if 255 < x then 255 else x

/-- Modelled from the spec: `grayscale(r,g,b)` in the missing Color
Transform Library — the luma-weighted average 0.299r+0.587g+0.114b,
applied to all three channels identically, clamped; alpha untouched. -/
def grayscalePixel (px : Pixel) : Pixel :=
  let y := clampChannel ((299/1000) * px.r + (587/1000) * px.g + (114/1000) * px.b)
  { r := y, g := y, b := y, a := px.a }

/-- Modelled from the spec: `sepia(r,g,b)` in the missing Color Transform
Library — the standard fixed 3×3 sepia color matrix, each output channel
clamped; alpha untouched. -/
def sepiaPixel (px : Pixel) : Pixel :=
  { r := clampChannel ((393/1000) * px.r + (769/1000) * px.g + (189/1000) * px.b),
    g := clampChannel ((349/1000) * px.r + (686/1000) * px.g + (168/1000) * px.b),
    b := clampChannel ((272/1000) * px.r + (534/1000) * px.g + (131/1000) * px.b),
    a := px.a }

/-- Modelled from the spec: `invert(r,g,b)` in the missing Color
Transform Library — `255 - channel` per channel, clamped; alpha
untouched. -/
def invertPixel (px : Pixel) : Pixel :=
  { r := clampChannel (255 - px.r), g := clampChannel (255 - px.g),
    b := clampChannel (255 - px.b), a := px.a }

/-- Modelled from the spec: `brightness(channel, pct)` in the missing
Color Transform Library — `channel * (pct/100)`, clamped to [0,255]. -/
def brightnessChannel (pct : ℚ) (c : ℚ) : ℚ :=
  clampChannel (c * (pct / 100))

/-- Brightness applied to all three color channels; alpha untouched. -/
def brightnessPixel (pct : ℚ) (px : Pixel) : Pixel :=
  { r := brightnessChannel pct px.r, g := brightnessChannel pct px.g,
    b := brightnessChannel pct px.b, a := px.a }

/-- Modelled from the spec: `contrast(channel, pct)` in the missing Color
Transform Library — linear contrast around mid-gray 128:
`(channel - 128) * (pct/100) + 128`, clamped to [0,255]. -/
def contrastChannel (pct : ℚ) (c : ℚ) : ℚ :=
  clampChannel ((c - 128) * (pct / 100) + 128)

/-- Contrast applied to all three color channels; alpha untouched. -/
def contrastPixel (pct : ℚ) (px : Pixel) : Pixel :=
  { r := contrastChannel pct px.r, g := contrastChannel pct px.g,
    b := contrastChannel pct px.b, a := px.a }

/-- Modelled from the spec: the fixed per-pixel stage order of the
missing Filter Compositor — grayscale → sepia → invert → brightness →
contrast, each boolean stage skipped when its flag is off. -/
def applyFilters (p : FilterParameters) (px : Pixel) : Pixel :=
  let px1 := if p.grayscale then grayscalePixel px else px
  let px2 := if p.sepia then sepiaPixel px1 else px1
  let px3 := if p.invert then invertPixel px2 else px2
  let px4 := brightnessPixel p.brightness px3
  contrastPixel p.contrast px4

/-- A decoded 2D grid of RGBA pixels, row-major. -/
structure Bitmap where
  width : ℕ
  height : ℕ
  pixels : List Pixel
deriving DecidableEq, Repr

/-- A bitmap all of whose pixels have 8-bit-range color channels; every
`SourceBitmap` of the spec satisfies this. -/
def Bitmap.Valid (b : Bitmap) : Prop :=
  ∀ px ∈ b.pixels, px.InRange

instance (b : Bitmap) : Decidable b.Valid :=
  List.decidableBAll _ b.pixels

/-- Modelled from the spec: the missing Filter Compositor — applies the
fixed stage pipeline to every pixel independently; dimensions are
preserved and the source is not mutated. -/
def renderBitmap (b : Bitmap) (p : FilterParameters) : Bitmap :=
  { width := b.width, height := b.height,
    pixels := b.pixels.map (applyFilters p) }

/-- Modelled from the spec: a parameter set as received from upstream by
the missing Filter Compositor entry point, before contract validation —
any of the five fields may be missing. -/
structure RawFilterParameters where
  grayscale : Option Bool
  sepia : Option Bool
  invert : Option Bool
  brightness : Option ℚ
  contrast : Option ℚ
deriving DecidableEq, Repr

/-- Modelled from the spec: the error taxonomy of §7 relevant to the
Compositor (decode and encode errors belong to the collaborators). -/
inductive RenderError
  | InvalidParameters
  | SourceUnavailable
deriving DecidableEq, Repr

/-- A raw parameter set that satisfies the Compositor contract: all five
fields present, brightness and contrast within the declared [0, 200]
range. -/
def RawFilterParameters.WellFormed (p : RawFilterParameters) : Prop :=
  p.grayscale.isSome = true ∧ p.sepia.isSome = true ∧ p.invert.isSome = true ∧
  (∃ br, p.brightness = some br ∧ 0 ≤ br ∧ br ≤ 200) ∧
  (∃ ct, p.contrast = some ct ∧ 0 ≤ ct ∧ ct ≤ 200)

instance (p : RawFilterParameters) : Decidable p.WellFormed := by
  unfold RawFilterParameters.WellFormed
  have : ∀ o : Option ℚ, Decidable (∃ x, o = some x ∧ 0 ≤ x ∧ x ≤ 200) := by
    intro o
    cases o with
    | none => exact .isFalse (by simp)
    | some x => exact decidable_of_iff (0 ≤ x ∧ x ≤ 200) (by simp)
  exact instDecidableAnd

/-- Modelled from the spec: contract validation of the missing
Compositor — extracts a complete, in-range `FilterParameters` value or
reports the contract violation. -/
def checkParams (p : RawFilterParameters) : Option FilterParameters :=
  match p.grayscale, p.sepia, p.invert, p.brightness, p.contrast with
  | some gs, some sp, some iv, some br, some ct =>
      if 0 ≤ br ∧ br ≤ 200 ∧ 0 ≤ ct ∧ ct ≤ 200 then
        some { grayscale := gs, sepia := sp, invert := iv, brightness := br, contrast := ct }
      else none
  | _, _, _, _, _ => none

/-- Modelled from the spec: the Compositor entry point of §4.2 — fails
with `InvalidParameters` on a malformed parameter set (rejecting loudly,
never clamping) and with `SourceUnavailable` when no source bitmap has
been decoded; otherwise renders. -/
def render (src : Option Bitmap) (p : RawFilterParameters) :
    Except RenderError Bitmap :=
  match checkParams p with
  | none => .error .InvalidParameters
  | some q =>
    match src with
    | none => .error .SourceUnavailable
    | some b => .ok (renderBitmap b q)

/-- Modelled from the spec: the Render Surface Manager state of §4.3 for
the live surface — the parameters of the last applied render, the most
recent pending parameter set (older pending sets are overwritten, never
queued), and a count of applied renders. -/
structure ManagerState where
  applied : Option FilterParameters
  pending : Option FilterParameters
  renderCount : ℕ
deriving DecidableEq, Repr

/-- Modelled from the spec: a parameter-change event — the new set
replaces any pending one (coalescing); nothing is rendered yet. -/
def paramChange (p : FilterParameters) (s : ManagerState) : ManagerState :=
  { s with pending := some p }

/-- Modelled from the spec: a render completion — the pending parameter
set, if any, becomes the applied one; with nothing pending no render
happens. -/
def completeRender (s : ManagerState) : ManagerState :=
  match s.pending with
  | some p => { applied := some p, pending := none, renderCount := s.renderCount + 1 }
  | none => s

/-- The two themes of `src/App.jsx` (initial state `dark`). -/
inductive Theme
  | dark
  | light
deriving DecidableEq, Repr

/-- The component state of `src/App.jsx`: the uploaded image (a data
URL, or none before upload), the filters object, the before/after
toggle, the theme, and the canvas held by `canvasRef` (none when no
canvas is mounted). -/
structure AppState where
  image : Option String
  filters : FilterParameters
  showOriginal : Bool
  theme : Theme
  canvas : Option Bitmap

/-- The initial state of `src/App.jsx` lines 11-21. -/
def initialAppState : AppState :=
  { image := none, filters := defaultFilters, showOriginal := false,
    theme := Theme.dark, canvas := none }

/-- The `handleImageUpload` handler of `src/App.jsx` lines 32-46: the
file is read as a data URL, stored as the new image, and the filters are
reset to the identity value. -/
def handleImageUpload (data : String) (s : AppState) : AppState :=
  { s with image := some data, filters := defaultFilters }

/-- A single-field update request as produced by the filter controls:
one of the five filter names together with a value of its type. -/
inductive FilterChange
  | grayscale (v : Bool)
  | sepia (v : Bool)
  | invert (v : Bool)
  | brightness (v : ℚ)
  | contrast (v : ℚ)
deriving DecidableEq, Repr

/-- The state updater inside `handleFilterChange` of `src/App.jsx` lines
53-58: spread the previous filters object and overwrite the named
field. -/
def updateFilter (prev : FilterParameters) : FilterChange → FilterParameters
  | .grayscale v => { prev with grayscale := v }
  | .sepia v => { prev with sepia := v }
  | .invert v => { prev with invert := v }
  | .brightness v => { prev with brightness := v }
  | .contrast v => { prev with contrast := v }

/-- The `handleFilterChange` handler of `src/App.jsx` lines 53-58. -/
def handleFilterChange (c : FilterChange) (s : AppState) : AppState :=
  { s with filters := updateFilter s.filters c }

/-- The `handleResetFilters` handler of `src/App.jsx` lines 63-71. -/
def handleResetFilters (s : AppState) : AppState :=
  { s with filters := defaultFilters }

/-- The `handlePresetSelect` handler of `src/App.jsx` lines 97-99. -/
def handlePresetSelect (preset : FilterParameters) (s : AppState) : AppState :=
  { s with filters := preset }

/-- The `toggleTheme` handler of `src/App.jsx` lines 89-91. -/
def toggleTheme (s : AppState) : AppState :=
  { s with theme := match s.theme with | .dark => .light | .light => .dark }

/-- The `handleDownload` handler of `src/App.jsx` lines 76-84: with no
mounted canvas or no image it returns at once (no file, no error, state
untouched); otherwise it triggers a download of the canvas content as a
PNG (the encoded file is modelled by the canvas bitmap it serializes). -/
def handleDownload (s : AppState) : AppState × Option Bitmap :=
  match s.canvas, s.image with
  | some cv, some _ => (s, some cv)
  | _, _ => (s, none)

/-- The filters value passed to the live `FilteredImage` surface,
`src/App.jsx` lines 176-186: the identity object while `showOriginal`
is set, the stored filters otherwise. -/
def liveFilters (s : AppState) : FilterParameters :=
  if s.showOriginal then
    { grayscale := false, sepia := false, invert := false,
      brightness := 100, contrast := 100 }
  else s.filters

/-- The press half of the compare toggle, `src/App.jsx` lines 191 and
194 (`onMouseDown`/`onTouchStart`). -/
def beginCompare (s : AppState) : AppState :=
  { s with showOriginal := true }

/-- The release half of the compare toggle, `src/App.jsx` lines 192-195
(`onMouseUp`/`onMouseLeave`/`onTouchEnd`). -/
def endCompare (s : AppState) : AppState :=
  { s with showOriginal := false }

theorem clampChannel_of_mem (x : ℚ) (h0 : 0 ≤ x) (h1 : x ≤ 255) :
    clampChannel x = x := by
  unfold clampChannel
  rw [if_neg (by linarith), if_neg (by linarith)]

theorem clampChannel_nonneg (x : ℚ) : 0 ≤ clampChannel x := by
  unfold clampChannel
  split_ifs with h1 h2 <;> [rfl; norm_num; linarith]

theorem clampChannel_le (x : ℚ) : clampChannel x ≤ 255 := by
  unfold clampChannel
  split_ifs with h1 h2 <;> [norm_num; rfl; linarith]

theorem clampChannel_idem (x : ℚ) : clampChannel (clampChannel x) = clampChannel x :=
  clampChannel_of_mem _ (clampChannel_nonneg x) (clampChannel_le x)

theorem brightnessChannel_100 (c : ℚ) : brightnessChannel 100 c = clampChannel c := by
  unfold brightnessChannel
  norm_num

theorem contrastChannel_100 (c : ℚ) : contrastChannel 100 c = clampChannel c := by
  unfold contrastChannel
  norm_num

theorem brightnessPixel_100 (px : Pixel) (h : px.InRange) :
    brightnessPixel 100 px = px := by
  obtain ⟨h1, h2, h3, h4, h5, h6⟩ := h
  unfold brightnessPixel
  rw [brightnessChannel_100, brightnessChannel_100, brightnessChannel_100,
    clampChannel_of_mem _ h1 h2, clampChannel_of_mem _ h3 h4, clampChannel_of_mem _ h5 h6]

theorem contrastPixel_100 (px : Pixel) (h : px.InRange) :
    contrastPixel 100 px = px := by
  obtain ⟨h1, h2, h3, h4, h5, h6⟩ := h
  unfold contrastPixel
  rw [contrastChannel_100, contrastChannel_100, contrastChannel_100,
    clampChannel_of_mem _ h1 h2, clampChannel_of_mem _ h3 h4, clampChannel_of_mem _ h5 h6]

theorem sepiaPixel_inRange (px : Pixel) : (sepiaPixel px).InRange :=
  ⟨clampChannel_nonneg _, clampChannel_le _, clampChannel_nonneg _,
    clampChannel_le _, clampChannel_nonneg _, clampChannel_le _⟩

theorem grayscalePixel_inRange (px : Pixel) : (grayscalePixel px).InRange :=
  ⟨clampChannel_nonneg _, clampChannel_le _, clampChannel_nonneg _,
    clampChannel_le _, clampChannel_nonneg _, clampChannel_le _⟩

theorem applyFilters_default (px : Pixel) (h : px.InRange) :
    applyFilters defaultFilters px = px := by
  show contrastPixel 100 (brightnessPixel 100 px) = px
  rw [brightnessPixel_100 px h, contrastPixel_100 px h]

theorem map_fixpoints (f : Pixel → Pixel) :
    ∀ l : List Pixel, (∀ px ∈ l, f px = px) → l.map f = l := by
  intro l
  induction l with
  | nil => intro _; rfl
  | cons hd tl ih =>
    intro h
    simp only [List.map_cons, h hd (by simp)]
    rw [ih fun px hm => h px (by simp [hm])]

/-- C1: rendering any source bitmap with the identity parameter set
{grayscale:false, sepia:false, invert:false, brightness:100,
contrast:100} produces an output pixel-for-pixel identical to the
untouched source. -/
theorem identity_render (b : Bitmap) (hb : b.Valid) :
    renderBitmap b defaultFilters = b := by
  obtain ⟨w, h, pxs⟩ := b
  unfold renderBitmap
  simp only
  rw [map_fixpoints _ _ fun px hm => applyFilters_default px (hb px hm)]

theorem identity_render_witness :
    (Bitmap.mk 1 1 [⟨12, 34, 56, 255⟩]).Valid ∧
      renderBitmap ⟨1, 1, [⟨12, 34, 56, 255⟩]⟩ defaultFilters = ⟨1, 1, [⟨12, 34, 56, 255⟩]⟩ :=
  ⟨by decide, identity_render _ (by decide)⟩

/-- C2: while the hold-to-compare gesture is active the live surface is
rendered with the identity parameter set, on release the stored filters
are used again, and a begin/end compare pair leaves the stored filters
exactly as they were. -/
theorem compare_swaps_only_live_params (s : AppState) :
    liveFilters (beginCompare s) = defaultFilters ∧
    (beginCompare s).filters = s.filters ∧
    liveFilters (endCompare s) = s.filters ∧
    (endCompare (beginCompare s)).filters = s.filters :=
  ⟨rfl, rfl, rfl, rfl⟩

/-- C3: uploading a new image, from any prior state, stores the new
image (discarding the previously loaded one backing the live surface)
and resets the filter parameters to the identity value. -/
theorem upload_resets_filters (s : AppState) (data : String) :
    (handleImageUpload data s).filters = defaultFilters ∧
    (handleImageUpload data s).image = some data :=
  ⟨rfl, rfl⟩

/-- C9: after parameter changes P1, P2, P3 issued before any render
completes, the next render completion applies exactly one render, with
parameters P3; a further completion with nothing pending does nothing. -/
theorem coalescing_applies_last (s : ManagerState) (P1 P2 P3 : FilterParameters) :
    (completeRender (paramChange P3 (paramChange P2 (paramChange P1 s)))).applied = some P3 ∧
    (completeRender (paramChange P3 (paramChange P2 (paramChange P1 s)))).renderCount =
      s.renderCount + 1 ∧
    completeRender (completeRender (paramChange P3 (paramChange P2 (paramChange P1 s)))) =
      completeRender (paramChange P3 (paramChange P2 (paramChange P1 s))) :=
  ⟨rfl, rfl, rfl⟩

/-- C10: with no mounted canvas or no loaded image, the download handler
is a silent no-op — it leaves the state unchanged and produces no
file. -/
theorem download_noop_without_image (s : AppState)
    (h : s.canvas = none ∨ s.image = none) :
    handleDownload s = (s, none) := by
  obtain ⟨img, f, so, th, cv⟩ := s
  rcases h with h | h
  · replace h : cv = none := h
    subst h
    rfl
  · replace h : img = none := h
    subst h
    cases cv <;> rfl

theorem download_noop_without_image_witness :
    (initialAppState.canvas = none ∨ initialAppState.image = none) ∧
      handleDownload initialAppState = (initialAppState, none) :=
  ⟨Or.inl rfl, download_noop_without_image initialAppState (Or.inl rfl)⟩

/-- The names of the five filter fields. -/
inductive FilterName
  | grayscale
  | sepia
  | invert
  | brightness
  | contrast
deriving DecidableEq, Repr

/-- The field a single-field change request targets. -/
def FilterChange.target : FilterChange → FilterName
  | .grayscale _ => .grayscale
  | .sepia _ => .sepia
  | .invert _ => .invert
  | .brightness _ => .brightness
  | .contrast _ => .contrast

/-- The value carried by a change request (a boolean or a number, as in
the source's `boolean|number` parameter). -/
def FilterChange.payload : FilterChange → Bool ⊕ ℚ
  | .grayscale v => .inl v
  | .sepia v => .inl v
  | .invert v => .inl v
  | .brightness v => .inr v
  | .contrast v => .inr v

/-- Read one named field out of a parameter set. -/
def FilterParameters.get (p : FilterParameters) : FilterName → Bool ⊕ ℚ
  | .grayscale => .inl p.grayscale
  | .sepia => .inl p.sepia
  | .invert => .inl p.invert
  | .brightness => .inr p.brightness
  | .contrast => .inr p.contrast

/-- C4: a single-field update always yields a parameter set that still
has all five fields (guaranteed by the `FilterParameters` type of the
result), stores the new value in the targeted field, and leaves every
other field at its prior value. -/
theorem updateFilter_changes_only_target (p : FilterParameters) (c : FilterChange)
    (n : FilterName) (h : n ≠ c.target) :
    (updateFilter p c).get c.target = c.payload ∧
      (updateFilter p c).get n = p.get n := by
  cases c <;> cases n <;>
    simp_all [updateFilter, FilterChange.target, FilterChange.payload, FilterParameters.get]

theorem updateFilter_changes_only_target_witness :
    FilterName.sepia ≠ (FilterChange.grayscale true).target ∧
      ((updateFilter defaultFilters (.grayscale true)).get (FilterChange.grayscale true).target =
          (FilterChange.grayscale true).payload ∧
        (updateFilter defaultFilters (.grayscale true)).get FilterName.sepia =
          defaultFilters.get FilterName.sepia) :=
  ⟨by decide, updateFilter_changes_only_target defaultFilters (.grayscale true)
    FilterName.sepia (by decide)⟩

/-- C6: with all boolean stages off and contrast at 100, the pipeline
maps every channel value c through clamp(c * (pct/100), 0, 255); the 1×1
pixel (200,150,100) at brightness 50 renders to (100,75,50), and the
white pixel at brightness 200 stays (255,255,255). -/
theorem brightness_stage_behaviour :
    (∀ (px : Pixel) (pct : ℚ),
      applyFilters ⟨false, false, false, pct, 100⟩ px =
        ⟨clampChannel (px.r * (pct / 100)), clampChannel (px.g * (pct / 100)),
          clampChannel (px.b * (pct / 100)), px.a⟩) ∧
    renderBitmap ⟨1, 1, [⟨200, 150, 100, 255⟩]⟩ ⟨false, false, false, 50, 100⟩ =
      ⟨1, 1, [⟨100, 75, 50, 255⟩]⟩ ∧
    renderBitmap ⟨1, 1, [⟨255, 255, 255, 255⟩]⟩ ⟨false, false, false, 200, 100⟩ =
      ⟨1, 1, [⟨255, 255, 255, 255⟩]⟩ := by
  have key : ∀ (px : Pixel) (pct : ℚ),
      applyFilters ⟨false, false, false, pct, 100⟩ px =
        ⟨clampChannel (px.r * (pct / 100)), clampChannel (px.g * (pct / 100)),
          clampChannel (px.b * (pct / 100)), px.a⟩ := by
    intro px pct
    show contrastPixel 100 (brightnessPixel pct px) = _
    unfold contrastPixel brightnessPixel brightnessChannel
    rw [contrastChannel_100, contrastChannel_100, contrastChannel_100,
      clampChannel_idem, clampChannel_idem, clampChannel_idem]
  refine ⟨key, ?_, ?_⟩
  · simp only [renderBitmap, List.map_cons, List.map_nil, key]
    norm_num [clampChannel]
  · simp only [renderBitmap, List.map_cons, List.map_nil, key]
    norm_num [clampChannel]

theorem grayscale_then_sepia (px : Pixel) :
    applyFilters ⟨true, true, false, 100, 100⟩ px = sepiaPixel (grayscalePixel px) := by
  show contrastPixel 100 (brightnessPixel 100 (sepiaPixel (grayscalePixel px))) = _
  rw [brightnessPixel_100 _ (sepiaPixel_inRange _), contrastPixel_100 _ (sepiaPixel_inRange _)]

/-- C7: with grayscale and sepia both enabled (other stages neutral),
rendering applies grayscale first and sepia second on every pixel, and
this differs from sepia-then-grayscale on the pixel (255,0,0). -/
theorem grayscale_before_sepia (b : Bitmap) :
    renderBitmap b ⟨true, true, false, 100, 100⟩ =
      ⟨b.width, b.height, b.pixels.map fun px => sepiaPixel (grayscalePixel px)⟩ ∧
    grayscalePixel (sepiaPixel ⟨255, 0, 0, 255⟩) ≠
      sepiaPixel (grayscalePixel ⟨255, 0, 0, 255⟩) := by
  constructor
  · unfold renderBitmap
    congr 1
    congr 1
    funext px
    exact grayscale_then_sepia px
  · norm_num [grayscalePixel, sepiaPixel, clampChannel]

theorem Pixel.inRange_mk {r g b a : ℚ} (h1 : 0 ≤ r) (h2 : r ≤ 255) (h3 : 0 ≤ g)
    (h4 : g ≤ 255) (h5 : 0 ≤ b) (h6 : b ≤ 255) : (Pixel.mk r g b a).InRange :=
  ⟨h1, h2, h3, h4, h5, h6⟩

theorem applyFilters_invert (px : Pixel) (h : px.InRange) :
    applyFilters ⟨false, false, true, 100, 100⟩ px =
      ⟨255 - px.r, 255 - px.g, 255 - px.b, px.a⟩ := by
  obtain ⟨h1, h2, h3, h4, h5, h6⟩ := h
  show contrastPixel 100 (brightnessPixel 100 (invertPixel px)) = _
  unfold invertPixel
  rw [clampChannel_of_mem _ (by linarith) (by linarith),
    clampChannel_of_mem _ (by linarith) (by linarith),
    clampChannel_of_mem _ (by linarith) (by linarith),
    brightnessPixel_100 _ (Pixel.inRange_mk (by linarith) (by linarith) (by linarith)
      (by linarith) (by linarith) (by linarith)),
    contrastPixel_100 _ (Pixel.inRange_mk (by linarith) (by linarith) (by linarith)
      (by linarith) (by linarith) (by linarith))]

/-- C8: rendering twice with invert (all other parameters at identity)
returns any 8-bit source bitmap unchanged, and a 2×2 all-white source
rendered once with invert is 2×2 black with alpha unchanged. -/
theorem invert_involution :
    (∀ b : Bitmap, b.Valid →
      renderBitmap (renderBitmap b ⟨false, false, true, 100, 100⟩)
        ⟨false, false, true, 100, 100⟩ = b) ∧
    renderBitmap
        ⟨2, 2, [⟨255, 255, 255, 255⟩, ⟨255, 255, 255, 255⟩, ⟨255, 255, 255, 255⟩,
          ⟨255, 255, 255, 255⟩]⟩ ⟨false, false, true, 100, 100⟩ =
      ⟨2, 2, [⟨0, 0, 0, 255⟩, ⟨0, 0, 0, 255⟩, ⟨0, 0, 0, 255⟩, ⟨0, 0, 0, 255⟩]⟩ := by
  constructor
  · intro b hb
    obtain ⟨w, ht, pxs⟩ := b
    unfold renderBitmap
    simp only [List.map_map]
    rw [map_fixpoints]
    intro px hm
    obtain ⟨h1, h2, h3, h4, h5, h6⟩ := hb px hm
    simp only [Function.comp]
    rw [applyFilters_invert px ⟨h1, h2, h3, h4, h5, h6⟩,
      applyFilters_invert _ (Pixel.inRange_mk (by linarith) (by linarith) (by linarith)
        (by linarith) (by linarith) (by linarith)),
      sub_sub_cancel, sub_sub_cancel, sub_sub_cancel]
  · simp only [renderBitmap, List.map_cons, List.map_nil,
      applyFilters_invert _ (by decide : (Pixel.mk 255 255 255 255).InRange)]
    norm_num

theorem invert_involution_witness :
    (Bitmap.mk 1 1 [⟨10, 20, 30, 40⟩]).Valid ∧
      renderBitmap (renderBitmap ⟨1, 1, [⟨10, 20, 30, 40⟩]⟩ ⟨false, false, true, 100, 100⟩)
        ⟨false, false, true, 100, 100⟩ = ⟨1, 1, [⟨10, 20, 30, 40⟩]⟩ :=
  ⟨by decide, invert_involution.1 _ (by decide)⟩

theorem checkParams_none_iff (p : RawFilterParameters) :
    checkParams p = none ↔ ¬ p.WellFormed := by
  obtain ⟨gs, sp, iv, br, ct⟩ := p
  cases gs <;> cases sp <;> cases iv <;> cases br <;> cases ct <;>
    simp only [checkParams, RawFilterParameters.WellFormed, Option.isSome_none,
      Option.isSome_some, Option.some.injEq, reduceCtorEq, false_and, and_false,
      true_and, not_false_iff, iff_true, not_true, exists_eq_left']
  all_goals try simp

theorem checkParams_some_fields (p : RawFilterParameters) (q : FilterParameters)
    (h : checkParams p = some q) :
    p.grayscale = some q.grayscale ∧ p.sepia = some q.sepia ∧ p.invert = some q.invert ∧
      p.brightness = some q.brightness ∧ p.contrast = some q.contrast := by
  obtain ⟨gs, sp, iv, br, ct⟩ := p
  cases gs <;> cases sp <;> cases iv <;> cases br <;> cases ct <;>
    simp only [checkParams, reduceCtorEq] at h
  split_ifs at h with hcond
  · obtain rfl := Option.some.inj h
    exact ⟨rfl, rfl, rfl, rfl, rfl⟩

/-- C5: with a source available, render fails with InvalidParameters
exactly when the parameter set is missing a field or has brightness or
contrast outside [0,200]; whenever it succeeds it uses the supplied
field values unchanged — out-of-range values are rejected, never
clamped. -/
theorem render_rejects_invalid_params (b : Bitmap) (p : RawFilterParameters) :
    (render (some b) p = .error .InvalidParameters ↔ ¬ p.WellFormed) ∧
    (render (some b) p = .error .InvalidParameters ∨
      ∃ q, render (some b) p = .ok (renderBitmap b q) ∧
        p.grayscale = some q.grayscale ∧ p.sepia = some q.sepia ∧
        p.invert = some q.invert ∧ p.brightness = some q.brightness ∧
        p.contrast = some q.contrast) := by
  constructor
  · unfold render
    cases hc : checkParams p with
    | none =>
      simp only [true_iff]
      exact (checkParams_none_iff p).mp hc
    | some q =>
      have hwf : p.WellFormed := by
        by_contra hn
        rw [(checkParams_none_iff p).mpr hn] at hc
        exact Option.noConfusion hc
      simp [hwf]
  · unfold render
    cases hc : checkParams p with
    | none => exact Or.inl rfl
    | some q =>
      exact Or.inr ⟨q, rfl, checkParams_some_fields p q hc⟩
